import Mathlib

/-!
Verification of the Microsoft 365 Agent SDK service layer
(`src/services/agentService.ts`) against its natural-language
specification.

The TypeScript service is shallowly embedded as pure Lean functions:

* JavaScript instants (`new Date()`, `Date.now()`) are milliseconds since
  the epoch, modelled as `Nat`; where the source stores an ISO string
  derived from an instant, we store the instant itself (the ISO rendering
  is injective, and no claim inspects the string's characters).
* Errors are their `message` strings, carried in `Except String`.
* The external collaborators (the MSAL identity provider and the Copilot
  Studio transport) are oracles supplied in an environment record; every
  call made to them is counted so claims about "no network call" are
  stated as call counts.
* The at-most-one status listener is modelled as an optional function
  `AuthStatus → Option String` held in the authenticator state: `none`
  means the callback returned normally, `some msg` means it threw an
  exception with message `msg` (the source does not guard these calls).
* JavaScript truthiness on strings (empty string is falsy) is modelled
  explicitly by `strTruthy` / `optStrTruthy` / `jsOrS`.

Renamings forced by the host language: `PCFAuth.initialize` is `setupAuth`,
`initializeCopilotClient` is inlined into `sendMessageAttempt`, and the
class fields become fields of explicit state records.
-/

/-- JS truthiness of a string: the empty string is falsy. -/
def strTruthy (s : String) : Bool := !s.isEmpty

/-- JS truthiness of a nullable string: `null`/`undefined` and `""` are falsy. -/
def optStrTruthy : Option String → Bool
  | none => false
  | some s => !s.isEmpty

/-- JS `a || b` on strings: returns `b` exactly when `a` is falsy (empty). -/
def jsOrS (a b : String) : String := if a.isEmpty then b else a

/-- `AgentConfig` from `src/types/agent.ts`. -/
structure AgentConfig where
  clientId : String
  tenantId : String
  botIdentifier : String
  environmentId : String
deriving Repr, DecidableEq

/-- The token information snapshot returned by `getTokenInfo`. -/
structure TokenInfo where
  hasToken : Bool
  expiresAt : Option Nat
  isValid : Bool
deriving Repr, DecidableEq

/-- The structured `AuthError` record built by `createAuthError`. -/
structure AuthErrorInfo where
  name : String
  message : String
  type : String
  timestamp : Nat
deriving Repr, DecidableEq

/-- The `AuthStatus` event pushed to the registered status listener. -/
structure AuthStatus where
  isAuthenticated : Bool
  error : Option AuthErrorInfo
  tokenInfo : Option TokenInfo
deriving Repr, DecidableEq

/-- The MSAL `Configuration.auth` block built by `PCFAuth`'s setup. -/
structure MsalAuthConfig where
  clientId : String
  authority : String
  redirectUri : String
deriving Repr, DecidableEq

/-- The fields of the `PCFAuth` class.  The status callback is carried as a
behaviour function (`none` = the callback returns, `some m` = it throws `m`). -/
structure PCFAuthState where
  msalInstance : Option MsalAuthConfig
  config : Option AgentConfig
  cachedToken : Option String
  tokenExpiryTime : Option Nat
  authStatusCallback : Option (AuthStatus → Option String)

/-- An MSAL `AuthenticationResult`: access token plus optional `expiresOn`. -/
structure AuthResult where
  accessToken : String
  expiresOn : Option Nat
deriving Repr, DecidableEq

/-- Oracle for the identity-provider transport consumed by `acquireToken`:
the outcome of `initialize()`, the two `getAllAccounts()` snapshots,
`loginPopup` and `acquireTokenSilent`. -/
structure MsalTransport where
  initResult : Option String
  accounts0 : List String
  loginPopup : Except String AuthResult
  accountsAfterLogin : List String
  silentRes : Except String AuthResult

/-- Environment of one `acquireToken` call: the instant used for every
`new Date()` inside the authenticator, and the transport oracle. -/
structure MsalEnv where
  now : Nat
  tr : MsalTransport

/-- `PCFAuth.isCachedTokenValid`: the cached token is truthy, an expiry is
present, and `now` is strictly before it. -/
def isCachedTokenValid (s : PCFAuthState) (now : Nat) : Bool :=
  optStrTruthy s.cachedToken &&
    (match s.tokenExpiryTime with
     | none => false
     | some t => now < t)

/-- `PCFAuth.getTokenInfo`: read-only snapshot of the cache. -/
def getTokenInfo (s : PCFAuthState) (now : Nat) : TokenInfo :=
  { hasToken := optStrTruthy s.cachedToken
    expiresAt := s.tokenExpiryTime
    isValid := isCachedTokenValid s now }

/-- `PCFAuth.createAuthError` for an error with message `msg`
(in this embedding every thrown value is an `Error`). -/
def createAuthError (msg : String) (now : Nat) : AuthErrorInfo :=
  { name := "Error", message := msg, type := "object", timestamp := now }

/-- `PCFAuth.notifyAuthError`: invoke the listener, if registered, with a
failure event.  Returns the events delivered and the exception the listener
threw, if any (the source has no guard around the call). -/
def notifyAuthError (s : PCFAuthState) (now : Nat) (msg : String) :
    List AuthStatus × Option String :=
  match s.authStatusCallback with
  | none => ([], none)
  | some cb =>
    let ev : AuthStatus :=
      { isAuthenticated := false, error := some (createAuthError msg now),
        tokenInfo := none }
    ([ev], cb ev)

/-- `PCFAuth.notifyAuthSuccess`: invoke the listener, if registered, with a
success event carrying the current token snapshot. -/
def notifyAuthSuccess (s : PCFAuthState) (now : Nat) :
    List AuthStatus × Option String :=
  match s.authStatusCallback with
  | none => ([], none)
  | some cb =>
    let ev : AuthStatus :=
      { isAuthenticated := true, error := none,
        tokenInfo := some (getTokenInfo s now) }
    ([ev], cb ev)

/-- `PCFAuth.cacheAndReturnToken`'s state effect: store the token and its
(`expiresOn || null`) expiry. -/
def cacheAndReturnToken (s : PCFAuthState) (r : AuthResult) : PCFAuthState :=
  { s with cachedToken := some r.accessToken, tokenExpiryTime := r.expiresOn }

/-- Outcome of `PCFAuth.initialize` (renamed `setupAuth`). -/
structure SetupOutcome where
  result : Except String Unit
  state : PCFAuthState
  events : List AuthStatus

/-- `PCFAuth.initialize`: reject an empty `clientId`/`tenantId` (notifying
the listener first, whose own exception would replace the thrown one),
otherwise store the config and build the MSAL instance bound to the
authority derived from `tenantId` and the window-origin redirect. -/
def setupAuth (s : PCFAuthState) (cfg : AgentConfig) (origin : String)
    (now : Nat) : SetupOutcome :=
  if !strTruthy cfg.clientId || !strTruthy cfg.tenantId then
    let msg := "ClientId and TenantId are required for authentication"
    match notifyAuthError s now msg with
    | (evs, some cbErr) => ⟨Except.error cbErr, s, evs⟩
    | (evs, none) => ⟨Except.error msg, s, evs⟩
  else
    ⟨Except.ok (),
      { s with
        config := some cfg
        msalInstance := some
          { clientId := cfg.clientId
            authority := "https://login.microsoftonline.com/" ++ cfg.tenantId
            redirectUri := origin } },
      []⟩

/-- Outcome of account discovery (`ensureUserIsLoggedIn`): the accounts or a
thrown message, the number of transport calls made, the events delivered. -/
structure EnsureOutcome where
  result : Except String (List String)
  calls : Nat
  events : List AuthStatus

/-- `PCFAuth.ensureUserIsLoggedIn`: read the accounts; if none, run the
interactive login popup (wrapping its failure) and re-read the accounts. -/
def ensureUserIsLoggedIn (s : PCFAuthState) (env : MsalEnv) : EnsureOutcome :=
  if env.tr.accounts0.isEmpty then
    match env.tr.loginPopup with
    | Except.error e =>
      let wrapped := "Interactive login failed: " ++ e
      match notifyAuthError s env.now wrapped with
      | (evs, some cbErr) => ⟨Except.error cbErr, 2, evs⟩
      | (evs, none) => ⟨Except.error wrapped, 2, evs⟩
    | Except.ok _ => ⟨Except.ok env.tr.accountsAfterLogin, 3, []⟩
  else ⟨Except.ok env.tr.accounts0, 1, []⟩

/-- Outcome of a token acquisition step: result, updated authenticator
state, transport call count, events delivered in order. -/
structure AcquireOutcome where
  result : Except String String
  state : PCFAuthState
  calls : Nat
  events : List AuthStatus

/-- `PCFAuth.acquireTokenSilentOrInteractive`: silent acquisition first; on
any silent failure fall back to the interactive popup, wrapping a popup
failure; each success caches the token. -/
def acquireTokenSilentOrInteractive (s : PCFAuthState) (env : MsalEnv) :
    AcquireOutcome :=
  match env.tr.silentRes with
  | Except.ok r => ⟨Except.ok r.accessToken, cacheAndReturnToken s r, 1, []⟩
  | Except.error _ =>
    match env.tr.loginPopup with
    | Except.ok r => ⟨Except.ok r.accessToken, cacheAndReturnToken s r, 2, []⟩
    | Except.error e =>
      let wrapped := "Interactive token acquisition failed: " ++ e
      match notifyAuthError s env.now wrapped with
      | (evs, some cbErr) => ⟨Except.error cbErr, s, 2, evs⟩
      | (evs, none) => ⟨Except.error wrapped, s, 2, evs⟩

/-- The `try` block of `acquireToken`: MSAL setup, account discovery,
silent-or-interactive acquisition, then the success notification (whose
listener exception, unguarded in the source, turns the result into a
failure). -/
def acquireTokenBody (s : PCFAuthState) (env : MsalEnv) : AcquireOutcome :=
  match env.tr.initResult with
  | some e => ⟨Except.error e, s, 1, []⟩
  | none =>
    match ensureUserIsLoggedIn s env with
    | ⟨Except.error e, c1, evs1⟩ => ⟨Except.error e, s, 1 + c1, evs1⟩
    | ⟨Except.ok _, c1, evs1⟩ =>
      match acquireTokenSilentOrInteractive s env with
      | ⟨Except.ok t, s2, c2, evs2⟩ =>
        match notifyAuthSuccess s2 env.now with
        | (evs3, some cbErr) =>
          ⟨Except.error cbErr, s2, 1 + c1 + c2, evs1 ++ evs2 ++ evs3⟩
        | (evs3, none) =>
          ⟨Except.ok t, s2, 1 + c1 + c2, evs1 ++ evs2 ++ evs3⟩
      | ⟨Except.error e, s2, c2, evs2⟩ =>
        ⟨Except.error e, s2, 1 + c1 + c2, evs1 ++ evs2⟩

/-- `PCFAuth.acquireToken`: cache fast path first; then the
initialization check (`validateInitialization`); then the `try` block,
whose failure is re-notified before being rethrown. -/
def acquireToken (s : PCFAuthState) (env : MsalEnv) : AcquireOutcome :=
  if isCachedTokenValid s env.now then
    ⟨Except.ok (s.cachedToken.getD ""), s, 0, []⟩
  else if s.msalInstance.isNone || s.config.isNone then
    let msg := "PCF Auth not initialized - call initialize() first"
    match notifyAuthError s env.now msg with
    | (evs, some cbErr) => ⟨Except.error cbErr, s, 0, evs⟩
    | (evs, none) => ⟨Except.error msg, s, 0, evs⟩
  else
    match acquireTokenBody s env with
    | ⟨Except.ok t, s2, c, evs⟩ => ⟨Except.ok t, s2, c, evs⟩
    | ⟨Except.error e, s2, c, evs⟩ =>
      match notifyAuthError s2 env.now e with
      | (evs2, some cbErr) => ⟨Except.error cbErr, s2, c, evs ++ evs2⟩
      | (evs2, none) => ⟨Except.error e, s2, c, evs ++ evs2⟩

/-- One reply-activity attachment: `{contentType, content, name?}`. -/
structure Attachment where
  contentType : String
  content : String
  name : Option String
deriving Repr, DecidableEq

/-- One provider reply activity.  `suggestedActions` models the optional
`suggestedActions?.actions` array (absent vs present-but-empty). -/
structure Activity where
  type : String
  text : Option String
  attachments : List Attachment
  suggestedActions : Option (List String)
deriving Repr, DecidableEq

/-- A collected adaptive card `{content, contentType, name}`. -/
structure AdaptiveCard where
  content : String
  contentType : String
  name : String
deriving Repr, DecidableEq

/-- Non-empty trimmed text segments of the message-typed activities, in
receipt order (`activity.text && activity.text.trim()` pushes the trim). -/
def extractTexts (replies : List Activity) : List String :=
  (replies.filter (fun a => a.type == "message")).filterMap (fun a =>
    match a.text with
    | none => none
    | some t => if (t.trim).isEmpty then none else some t.trim)

/-- Adaptive-card attachments of the message-typed activities, in order,
with the `name || "Adaptive Card"` default. -/
def extractCards (replies : List Activity) : List AdaptiveCard :=
  (replies.filter (fun a => a.type == "message")).flatMap (fun a =>
    a.attachments.filterMap (fun att =>
      if att.contentType == "application/vnd.microsoft.card.adaptive" then
        some { content := att.content, contentType := att.contentType,
               name := jsOrS (att.name.getD "") "Adaptive Card" }
      else none))

/-- Suggested actions of the message-typed activities, concatenated in
order (`suggestedActions?.actions` is spread when present). -/
def extractActions (replies : List Activity) : List String :=
  (replies.filter (fun a => a.type == "message")).flatMap (fun a =>
    a.suggestedActions.getD [])

/-- The duck-typed object `sendMessageToAgent` resolves with. -/
structure AgentRaw where
  text : String
  message : String
  id : String
  conversationId : String
  activities : List Activity
  suggestedActions : List String
  adaptiveCards : List AdaptiveCard
  agentResponseReceived : Bool
  hasAdaptiveCards : Bool
  hasText : Bool
  hasSuggestedActions : Bool
deriving Repr, DecidableEq

/-- Oracle for the Copilot Studio transport: `startConversationAsync`
yields `conversation?.id` (collapsed to one `Option String`) or throws;
`askQuestionAsync` is keyed by the message and the conversation id. -/
structure CopilotTransport where
  startConv : Except String (Option String)
  askQuestion : String → String → Except String (List Activity)

/-- The `ConnectionSettings` the Copilot client is constructed from. -/
structure ConnectionSettings where
  appClientId : String
  tenantId : String
  environmentId : String
  agentIdentifier : String
deriving Repr, DecidableEq

/-- The constructed Copilot Studio client: settings plus bearer token. -/
structure CopilotClientHandle where
  settings : ConnectionSettings
  accessToken : String
deriving Repr, DecidableEq

/-- The fields of the `AgentClient` class. -/
structure AgentClientState where
  config : AgentConfig
  auth : PCFAuthState
  copilotClient : Option CopilotClientHandle
  currentConversationId : Option String

/-- `AgentClient.resetConversationContext`: clear the held conversation id. -/
def resetConversationContext (st : AgentClientState) : AgentClientState :=
  { st with currentConversationId := none }

/-- `AgentClient.isValidGuid`: the case-insensitive
`8-4-4-4-12` GUID pattern with version nibble `[1-5]` and variant
nibble `[89ab]`. -/
def isValidGuid (v : String) : Bool :=
  let cs := v.toList
  cs.length == 36 &&
    (List.range 36).all (fun i =>
      let c := cs.getD i ' '
      if i == 8 || i == 13 || i == 18 || i == 23 then c == '-'
      else if i == 14 then ("12345".toList).contains c
      else if i == 19 then ("89abAB".toList).contains c
      else ("0123456789abcdefABCDEF".toList).contains c)

/-- Result of `AgentClient.validateConfig`. -/
structure ValidationResult where
  isValid : Bool
  errors : List String
deriving Repr, DecidableEq

/-- `AgentClient.validateConfig`: one missing-field error per falsy
required field (in source order), then a GUID-format error for each of
`clientId`/`tenantId` that is truthy but fails the pattern;
`isValid` iff the error list is empty. -/
def validateConfig (cfg : AgentConfig) : ValidationResult :=
  let errors :=
    (if !strTruthy cfg.clientId then ["Client ID is required"] else []) ++
    (if !strTruthy cfg.tenantId then ["Tenant ID is required"] else []) ++
    (if !strTruthy cfg.botIdentifier then ["Bot Identifier is required"] else []) ++
    (if !strTruthy cfg.environmentId then ["Environment ID is required"] else []) ++
    (if strTruthy cfg.clientId && !isValidGuid cfg.clientId then
      ["Client ID must be a valid GUID"] else []) ++
    (if strTruthy cfg.tenantId && !isValidGuid cfg.tenantId then
      ["Tenant ID must be a valid GUID"] else [])
  { isValid := errors.length == 0, errors := errors }

/-- Outcome of one `sendMessageToAgent` call: the resolved raw response or
the thrown message, the updated client state, the number of
`startConversationAsync` calls, and the conversation ids passed to
`askQuestionAsync`. -/
structure TurnOutcome where
  result : Except String AgentRaw
  state : AgentClientState
  startCalls : Nat
  askedIds : List String

/-- The object literal `sendMessageToAgent` resolves with, built from the
reply activities and the resolved conversation id. -/
def normalizeReplies (replies : List Activity) (cid : String)
    (respNow : Nat) : AgentRaw :=
  let responseText := String.intercalate "\n\n" (extractTexts replies)
  let cards := extractCards replies
  let actions := extractActions replies
  { text := responseText
    message := responseText
    id := "response-" ++ toString respNow
    conversationId := cid
    activities := replies
    suggestedActions := actions
    adaptiveCards := cards
    agentResponseReceived := true
    hasAdaptiveCards := !cards.isEmpty
    hasText := !responseText.isEmpty
    hasSuggestedActions := !actions.isEmpty }

/-- The ask-and-normalize tail of `sendMessageToAgent`, run once a
conversation id `cid` is resolved (and already stored in `st`). -/
def askAndNormalize (st : AgentClientState) (tr : CopilotTransport)
    (respNow : Nat) (message cid : String) (startCalls : Nat) : TurnOutcome :=
  match tr.askQuestion message cid with
  | Except.error e =>
    ⟨Except.error ("Failed to communicate with agent: " ++ e), st, startCalls,
      [cid]⟩
  | Except.ok replies =>
    ⟨Except.ok (normalizeReplies replies cid respNow), st, startCalls, [cid]⟩

/-- `AgentClient.sendMessageToAgent`: require an initialized Copilot
client; clear the held id when not continuing; reuse a truthy held id,
otherwise start a conversation (throwing when no id comes back, wrapped
like every failure in this method) and store the new id; then submit the
question and normalize the replies. -/
def sendMessageToAgent (st : AgentClientState) (tr : CopilotTransport)
    (respNow : Nat) (message : String) (cont : Bool) : TurnOutcome :=
  match st.copilotClient with
  | none => ⟨Except.error "Copilot Studio Client not initialized", st, 0, []⟩
  | some _ =>
    let st1 := if !cont then { st with currentConversationId := none } else st
    if optStrTruthy st1.currentConversationId && cont then
      askAndNormalize st1 tr respNow message (st1.currentConversationId.getD "") 0
    else
      match tr.startConv with
      | Except.error e =>
        ⟨Except.error ("Failed to communicate with agent: " ++ e), st1, 1, []⟩
      | Except.ok newId =>
        if !optStrTruthy newId then
          ⟨Except.error
            "Failed to communicate with agent: Failed to get conversation ID from agent",
            st1, 1, []⟩
        else
          let cid := newId.getD ""
          let st2 := { st1 with currentConversationId := some cid }
          askAndNormalize st2 tr respNow message cid 1

/-- The normalized `AgentResponse.metadata` record.  `duration`,
`startTime`, `endTime`, `botId`, `environmentId` and `authenticated` are
set on both the success and the failure branch of `sendMessage`; the
remaining fields only on one of them. -/
structure ResponseMetadata where
  duration : Int
  startTime : Nat
  endTime : Nat
  botId : String
  environmentId : String
  authenticated : Bool
  error : Option String := none
  agentResponseId : Option String := none
  conversationId : Option String := none
  suggestedActions : Option (List String) := none
  adaptiveCards : Option (List AdaptiveCard) := none
  activitiesCount : Option Nat := none
  hasAdaptiveCards : Option Bool := none
  hasText : Option Bool := none
  hasSuggestedActions : Option Bool := none
  fullActivities : Option (List Activity) := none
deriving Repr, DecidableEq

/-- The `AgentResponse` envelope returned by `sendMessage`. -/
structure AgentResponse where
  message : String
  success : Bool
  timestamp : Nat
  conversationId : String
  metadata : ResponseMetadata
deriving Repr, DecidableEq

/-- Environment of one `sendMessage` call: the start/end instants, the
instant used inside the authenticator, the instant stamped into the raw
response id, and the two transport oracles. -/
structure SendEnv where
  startTime : Nat
  endTime : Nat
  authNow : Nat
  respNow : Nat
  msal : MsalTransport
  copilot : CopilotTransport

/-- Outcome of one `sendMessage` call: the envelope (this embedding is
total — `sendMessage` never rejects), the updated client state, the
identity-provider and `startConversationAsync` call counts, the
conversation ids asked, and the status events delivered. -/
structure SendOutcome where
  resp : AgentResponse
  state : AgentClientState
  msalCalls : Nat
  startConvCalls : Nat
  askedIds : List String
  events : List AuthStatus

/-- The `try` block of `sendMessage`: validation (throwing on an invalid
config), token acquisition, Copilot-client construction
(`initializeCopilotClient`, which cannot fail in this model), then the
turn itself. -/
def sendMessageAttempt (st : AgentClientState) (env : SendEnv)
    (message : String) (cont : Bool) :
    Except String AgentRaw × AgentClientState × Nat × Nat × List String ×
      List AuthStatus :=
  let v := validateConfig st.config
  if v.isValid then
    match acquireToken st.auth ⟨env.authNow, env.msal⟩ with
    | ⟨Except.error e, a2, mc, evs⟩ =>
      (Except.error e, { st with auth := a2 }, mc, 0, [], evs)
    | ⟨Except.ok tok, a2, mc, evs⟩ =>
      let st1 : AgentClientState :=
        { st with
          auth := a2
          copilotClient := some
            { settings :=
                { appClientId := st.config.clientId
                  tenantId := st.config.tenantId
                  environmentId := st.config.environmentId
                  agentIdentifier := st.config.botIdentifier }
              accessToken := tok } }
      match sendMessageToAgent st1 env.copilot env.respNow message cont with
      | ⟨r, st2, sc, asked⟩ => (r, st2, mc, sc, asked, evs)
  else
    (Except.error ("Configuration invalid: " ++ String.intercalate ", " v.errors),
      st, 0, 0, [], [])

/-- The success `AgentResponse` literal of `sendMessage`, including the
`text || message || (hasAdaptiveCards ? "" : "No response from agent")`
coercion of the message text. -/
def successEnvelope (cfg : AgentConfig) (env : SendEnv) (raw : AgentRaw) :
    AgentResponse :=
  { message :=
      jsOrS raw.text (jsOrS raw.message
        (if raw.hasAdaptiveCards then "" else "No response from agent"))
    success := true
    timestamp := env.endTime
    conversationId := jsOrS raw.conversationId (jsOrS raw.id "")
    metadata :=
      { duration := (env.endTime : Int) - (env.startTime : Int)
        startTime := env.startTime
        endTime := env.endTime
        botId := cfg.botIdentifier
        environmentId := cfg.environmentId
        authenticated := true
        agentResponseId := some raw.id
        conversationId := some raw.conversationId
        suggestedActions := some raw.suggestedActions
        adaptiveCards := some raw.adaptiveCards
        activitiesCount := some raw.activities.length
        hasAdaptiveCards := some raw.hasAdaptiveCards
        hasText := some raw.hasText
        hasSuggestedActions := some raw.hasSuggestedActions
        fullActivities := some raw.activities } }

/-- The failure `AgentResponse` literal of `sendMessage`'s catch block:
`"API Error: "` prefix, `conversationId = "error"`, and the same
duration/timing fields as the success literal. -/
def errorEnvelope (cfg : AgentConfig) (env : SendEnv) (e : String) :
    AgentResponse :=
  { message := "API Error: " ++ e
    success := false
    timestamp := env.endTime
    conversationId := "error"
    metadata :=
      { duration := (env.endTime : Int) - (env.startTime : Int)
        startTime := env.startTime
        endTime := env.endTime
        botId := cfg.botIdentifier
        environmentId := cfg.environmentId
        authenticated := false
        error := some e } }

/-- `AgentClient.sendMessage`: run the attempt; on resolution build the
success envelope, on any thrown error build the failed envelope —
`sendMessage` itself never rejects, which this embedding expresses by
being a total function into `SendOutcome`. -/
def sendMessage (st : AgentClientState) (env : SendEnv) (message : String)
    (cont : Bool) : SendOutcome :=
  match sendMessageAttempt st env message cont with
  | (Except.ok raw, st2, mc, sc, asked, evs) =>
    ⟨successEnvelope st.config env raw, st2, mc, sc, asked, evs⟩
  | (Except.error e, st2, mc, sc, asked, evs) =>
    ⟨errorEnvelope st.config env e, st2, mc, sc, asked, evs⟩

/-- `createAgentClient` / the `AgentClient` constructor: fresh
authenticator state, `initializeAuth` running the setup with its failure
swallowed (only logged in the source). -/
def createAgentClient (cfg : AgentConfig) (origin : String) (now : Nat) :
    AgentClientState × List AuthStatus :=
  let s0 : PCFAuthState :=
    { msalInstance := none, config := none, cachedToken := none,
      tokenExpiryTime := none, authStatusCallback := none }
  let r := setupAuth s0 cfg origin now
  ({ config := cfg, auth := r.state, copilotClient := none,
     currentConversationId := none }, r.events)

/-! ## Helper lemmas -/

theorem strTruthy_of_ne (s : String) (h : s ≠ "") : strTruthy s = true := by
  unfold strTruthy
  have : s.isEmpty = false := by
    rw [Bool.eq_false_iff]
    intro hh
    exact h ((String.isEmpty_iff s).mp hh)
  simp [this]

theorem strTruthy_of_eq (s : String) (h : s = "") : strTruthy s = false := by
  subst h; rfl

theorem strTruthy_false_iff (s : String) : strTruthy s = false ↔ s = "" := by
  constructor
  · intro h
    by_contra hne
    rw [strTruthy_of_ne s hne] at h
    cases h
  · intro h; exact strTruthy_of_eq s h

theorem optStrTruthy_some (s : String) (h : s ≠ "") :
    optStrTruthy (some s) = true := by
  unfold optStrTruthy
  have := strTruthy_of_ne s h
  unfold strTruthy at this
  exact this

/-- The fast-path equation of `acquireToken`. -/
theorem acquireToken_fast (s : PCFAuthState) (env : MsalEnv)
    (h : isCachedTokenValid s env.now = true) :
    acquireToken s env = ⟨Except.ok (s.cachedToken.getD ""), s, 0, []⟩ := by
  unfold acquireToken
  simp [h]

/-! ## Shared concrete fixtures for witnesses and counterexamples -/

/-- A syntactically valid GUID (version nibble `1`, variant nibble `8`). -/
def guidA : String := "12345678-1234-1234-89ab-123456789abc"

/-- A fully valid configuration. -/
def cfgValid : AgentConfig := ⟨guidA, guidA, "bot-schema", "env-1"⟩

/-- A configuration with every field empty. -/
def cfgEmpty : AgentConfig := ⟨"", "", "", ""⟩

/-- A fresh authenticator state. -/
def authStateEmpty : PCFAuthState := ⟨none, none, none, none, none⟩

/-- The MSAL instance `setupAuth` builds from `cfgValid`. -/
def msalCfg0 : MsalAuthConfig :=
  ⟨guidA, "https://login.microsoftonline.com/" ++ guidA, "https://app.example"⟩

/-- An identity-provider oracle on which every transport call fails. -/
def msalIdle : MsalTransport :=
  ⟨none, [], Except.error "popup blocked", [], Except.error "silent failed"⟩

/-- An identity-provider oracle with a signed-in account and a working
silent flow. -/
def msalHappy : MsalTransport :=
  ⟨none, ["user"], Except.ok ⟨"popupTok", some 2000⟩, ["user"],
    Except.ok ⟨"tok", some 1000⟩⟩

/-- A Copilot oracle on which every transport call fails. -/
def copilotIdle : CopilotTransport :=
  ⟨Except.error "offline", fun _ _ => Except.error "offline"⟩

/-- A Copilot oracle that starts conversation `conv-1` and answers every
question with an empty activity list. -/
def copilotEmptyReply : CopilotTransport :=
  ⟨Except.ok (some "conv-1"), fun _ _ => Except.ok []⟩

/-- A client state with no configuration data at all. -/
def clientStateEmpty : AgentClientState := ⟨cfgEmpty, authStateEmpty, none, none⟩

/-- A client state with a valid configuration and a valid cached token
(expiry instant 100). -/
def clientReady : AgentClientState :=
  ⟨cfgValid, ⟨some msalCfg0, some cfgValid, some "tok", some 100, none⟩, none,
    none⟩

/-- An environment built on the idle transports. -/
def envIdle : SendEnv := ⟨10, 25, 10, 10, msalIdle, copilotIdle⟩

/-- An environment where the agent replies with zero activities. -/
def envEmptyReply : SendEnv := ⟨0, 7, 0, 3, msalHappy, copilotEmptyReply⟩

/-! ## Claims -/

/-- **C8.** For every client state, `resetConversationContext()`
unconditionally clears the held conversation identifier, never errors
(it is a total pure function in this embedding, with no transport
oracle in its signature), changes no other field; calling it when no
conversation is active is a no-op, and calling it twice equals calling
it once. -/
theorem c8_reset_conversation_context (st : AgentClientState) :
    (resetConversationContext st).currentConversationId = none
    ∧ resetConversationContext (resetConversationContext st)
        = resetConversationContext st
    ∧ (st.currentConversationId = none → resetConversationContext st = st)
    ∧ (resetConversationContext st).config = st.config
    ∧ (resetConversationContext st).auth = st.auth
    ∧ (resetConversationContext st).copilotClient = st.copilotClient := by
  refine ⟨rfl, rfl, ?_, rfl, rfl, rfl⟩
  intro h
  cases st with
  | mk c a cp cur =>
    simp only at h
    rw [resetConversationContext, h]

/-- Witness for C8 at a concrete state with no active conversation. -/
theorem c8_reset_conversation_context_witness :
    (resetConversationContext clientStateEmpty).currentConversationId = none
    ∧ resetConversationContext clientStateEmpty = clientStateEmpty :=
  ⟨(c8_reset_conversation_context clientStateEmpty).1,
   (c8_reset_conversation_context clientStateEmpty).2.2.1 rfl⟩

/-- **C4.** Whenever `getTokenInfo().isValid` holds (a cached token exists
and now is strictly before its expiry), `acquireToken()` returns the
cached token immediately: unchanged state, zero identity-provider calls,
no notification — and this holds for every state, including ones on which
the initialization check would fail, so the cache check comes first. -/
theorem c4_token_fast_path (s : PCFAuthState) (env : MsalEnv)
    (h : (getTokenInfo s env.now).isValid = true) :
    (acquireToken s env).result = Except.ok (s.cachedToken.getD "")
    ∧ (acquireToken s env).state = s
    ∧ (acquireToken s env).calls = 0
    ∧ (acquireToken s env).events = [] := by
  have h' : isCachedTokenValid s env.now = true := h
  rw [acquireToken_fast s env h']
  exact ⟨rfl, rfl, rfl, rfl⟩

/-- Witness for C4 on an *uninitialized* authenticator holding a valid
cached token: the fast path fires before the initialization check. -/
theorem c4_token_fast_path_witness :
    (getTokenInfo ⟨none, none, some "tok", some 100, none⟩ 50).isValid = true
    ∧ (acquireToken ⟨none, none, some "tok", some 100, none⟩
        ⟨50, msalIdle⟩).result = Except.ok "tok"
    ∧ (acquireToken ⟨none, none, some "tok", some 100, none⟩
        ⟨50, msalIdle⟩).calls = 0 := by
  have h := c4_token_fast_path ⟨none, none, some "tok", some 100, none⟩
    ⟨50, msalIdle⟩ (by decide)
  exact ⟨by decide, h.1, h.2.2.1⟩

/-- **C1.** Every `sendMessage` call returns an envelope (the embedding is
total: no rejection escapes); its metadata always carries the same
`duration`/`startTime`/`endTime` fields on both branches, and whenever
`success = false` the message text is the `"API Error: "` prefix followed
by the underlying error's message (also recorded in `metadata.error`) and
`conversationId = "error"`. -/
theorem c1_error_envelope (st : AgentClientState) (env : SendEnv)
    (m : String) (c : Bool) :
    ((sendMessage st env m c).resp.metadata.duration
        = (env.endTime : Int) - (env.startTime : Int)
      ∧ (sendMessage st env m c).resp.metadata.startTime = env.startTime
      ∧ (sendMessage st env m c).resp.metadata.endTime = env.endTime)
    ∧ ((sendMessage st env m c).resp.success = false →
        ∃ e, (sendMessage st env m c).resp.metadata.error = some e
          ∧ (sendMessage st env m c).resp.message = "API Error: " ++ e
          ∧ (sendMessage st env m c).resp.conversationId = "error") := by
  unfold sendMessage
  rcases h : sendMessageAttempt st env m c with ⟨r, st2, mc, sc, asked, evs⟩
  cases r with
  | ok raw =>
    refine ⟨⟨rfl, rfl, rfl⟩, ?_⟩
    intro hf
    exact absurd hf (by simp [successEnvelope])
  | error e =>
    exact ⟨⟨rfl, rfl, rfl⟩, fun _ => ⟨e, rfl, rfl, rfl⟩⟩

/-- Witness for C1: a concrete failing call (invalid configuration). -/
theorem c1_error_envelope_witness :
    ∃ e, (sendMessage clientStateEmpty envIdle "hi" true).resp.metadata.error
          = some e
      ∧ (sendMessage clientStateEmpty envIdle "hi" true).resp.message
          = "API Error: " ++ e
      ∧ (sendMessage clientStateEmpty envIdle "hi" true).resp.conversationId
          = "error" :=
  (c1_error_envelope clientStateEmpty envIdle "hi" true).2 (by decide)

/-- An authenticator state that is uninitialized but holds a cached token. -/
def cachedAuthState : PCFAuthState := ⟨none, none, some "tok", some 1000, none⟩

/-- **C6, counterexample.** The claim says a successful `initialize`
resets the token cache so that `getTokenInfo()` afterwards reports
`hasToken = false` and `isValid = false` regardless of any previously
cached token.  On a state holding a valid cached token, the setup
succeeds yet the snapshot still reports `hasToken = true` and
`isValid = true`: the source's `initialize` never touches
`cachedToken`/`tokenExpiryTime`. -/
theorem c6_counterexample :
    (setupAuth cachedAuthState cfgValid "https://app.example" 5).result
      = Except.ok ()
    ∧ (getTokenInfo (setupAuth cachedAuthState cfgValid "https://app.example"
        5).state 10).hasToken = true
    ∧ (getTokenInfo (setupAuth cachedAuthState cfgValid "https://app.example"
        5).state 10).isValid = true := ⟨rfl, rfl, rfl⟩

/-- **C6, amended.** For every configuration with non-empty `clientId` and
`tenantId`, `initialize(config)` constructs the identity-provider client
bound to the authority derived from `tenantId` (and the window-origin
redirect) and stores the configuration, while leaving the token cache
*unchanged* (not resetting it); with an empty `clientId` or `tenantId` it
fails with the configuration error.  (Stated for an unregistered status
listener, so the error message survives the notification.) -/
theorem c6_setup_auth (s : PCFAuthState) (cfg : AgentConfig)
    (origin : String) (now : Nat) (hcb : s.authStatusCallback = none) :
    ((cfg.clientId = "" ∨ cfg.tenantId = "") →
      (setupAuth s cfg origin now).result
        = Except.error "ClientId and TenantId are required for authentication"
      ∧ (setupAuth s cfg origin now).state = s)
    ∧ (cfg.clientId ≠ "" → cfg.tenantId ≠ "" →
      (setupAuth s cfg origin now).result = Except.ok ()
      ∧ (setupAuth s cfg origin now).state.config = some cfg
      ∧ (setupAuth s cfg origin now).state.msalInstance = some
          ⟨cfg.clientId,
            "https://login.microsoftonline.com/" ++ cfg.tenantId, origin⟩
      ∧ (setupAuth s cfg origin now).state.cachedToken = s.cachedToken
      ∧ (setupAuth s cfg origin now).state.tokenExpiryTime
          = s.tokenExpiryTime) := by
  constructor
  · intro h
    have hcond : (!strTruthy cfg.clientId || !strTruthy cfg.tenantId) = true := by
      rcases h with h | h <;> simp [strTruthy_of_eq _ h]
    unfold setupAuth
    rw [hcond]
    simp [notifyAuthError, hcb]
  · intro h1 h2
    have hcond : (!strTruthy cfg.clientId || !strTruthy cfg.tenantId) = false := by
      simp [strTruthy_of_ne _ h1, strTruthy_of_ne _ h2]
    unfold setupAuth
    rw [hcond]
    simp

/-- Witness for C6 (amended): the failure leg at an empty `clientId` and
the success leg at the valid configuration. -/
theorem c6_setup_auth_witness :
    ((setupAuth authStateEmpty cfgEmpty "https://app.example" 0).result
      = Except.error "ClientId and TenantId are required for authentication")
    ∧ ((setupAuth authStateEmpty cfgValid "https://app.example" 0).result
      = Except.ok ())
    ∧ ((setupAuth authStateEmpty cfgValid "https://app.example" 0).state.msalInstance
      = some msalCfg0) :=
  ⟨((c6_setup_auth authStateEmpty cfgEmpty "https://app.example" 0 rfl).1
      (Or.inl rfl)).1,
   ((c6_setup_auth authStateEmpty cfgValid "https://app.example" 0 rfl).2
      (by decide) (by decide)).1,
   ((c6_setup_auth authStateEmpty cfgValid "https://app.example" 0 rfl).2
      (by decide) (by decide)).2.2.1⟩

/-- Every run of the `try` block of `acquireToken` makes at least one
identity-provider call (the MSAL instance setup is always invoked). -/
theorem acquireTokenBody_calls_pos (s : PCFAuthState) (env : MsalEnv) :
    1 ≤ (acquireTokenBody s env).calls := by
  unfold acquireTokenBody
  split
  · simp
  · split
    · simp <;> omega
    · split
      · split <;> simp <;> omega
      · simp <;> omega

/-- Off the fast path, `acquireToken` makes exactly the calls its `try`
block makes (the catch wrapper adds none). -/
theorem acquireToken_calls_eq_body (s : PCFAuthState) (env : MsalEnv)
    (hfast : isCachedTokenValid s env.now = false)
    (hmsal : s.msalInstance.isSome = true) (hcfg : s.config.isSome = true) :
    (acquireToken s env).calls = (acquireTokenBody s env).calls := by
  have h1 : s.msalInstance.isNone = false := by
    cases h : s.msalInstance <;> simp_all
  have h2 : s.config.isNone = false := by
    cases h : s.config <;> simp_all
  unfold acquireToken
  rw [hfast, h1, h2]
  rcases hb : acquireTokenBody s env with ⟨r, s2, c, evs⟩
  cases r with
  | ok t => simp
  | error e =>
    rcases hn : notifyAuthError s2 env.now e with ⟨evs2, exc⟩
    cases exc <;> simp [hn]

/-- **C10.** When the provider returns an access token without an expiry
(`expiresOn` absent), `acquireToken` still returns the token and caches
it with an absent expiry; the cache is then never valid — `getTokenInfo`
reports `hasToken = true`, `isValid = false` at every instant — and the
next `acquireToken` call cannot take the fast path: it re-enters the
acquisition flow and makes at least one identity-provider call.
(Stated on the silent path with a signed-in account and no listener.) -/
theorem c10_token_without_expiry (s : PCFAuthState) (env : MsalEnv)
    (a tok : String)
    (hfast : isCachedTokenValid s env.now = false)
    (hmsal : s.msalInstance.isSome = true)
    (hcfg : s.config.isSome = true)
    (hcb : s.authStatusCallback = none)
    (hinit : env.tr.initResult = none)
    (hacc : env.tr.accounts0 = [a])
    (hsil : env.tr.silentRes = Except.ok ⟨tok, none⟩)
    (htok : tok ≠ "") :
    (acquireToken s env).result = Except.ok tok
    ∧ (acquireToken s env).state.cachedToken = some tok
    ∧ (acquireToken s env).state.tokenExpiryTime = none
    ∧ (∀ now2, (getTokenInfo (acquireToken s env).state now2).hasToken = true
        ∧ (getTokenInfo (acquireToken s env).state now2).isValid = false)
    ∧ (∀ env2 : MsalEnv,
        1 ≤ (acquireToken (acquireToken s env).state env2).calls) := by
  have h1 : s.msalInstance.isNone = false := by
    cases h : s.msalInstance <;> simp_all
  have h2 : s.config.isNone = false := by
    cases h : s.config <;> simp_all
  have hbody : acquireTokenBody s env
      = ⟨Except.ok tok, cacheAndReturnToken s ⟨tok, none⟩, 3, []⟩ := by
    unfold acquireTokenBody ensureUserIsLoggedIn
      acquireTokenSilentOrInteractive notifyAuthSuccess
    rw [hinit, hacc, hsil]
    simp [cacheAndReturnToken, hcb]
  have hmain : acquireToken s env
      = ⟨Except.ok tok, cacheAndReturnToken s ⟨tok, none⟩, 3, []⟩ := by
    unfold acquireToken
    rw [hfast, h1, h2, hbody]
    simp
  rw [hmain]
  have hstate : (cacheAndReturnToken s ⟨tok, none⟩).cachedToken = some tok
      ∧ (cacheAndReturnToken s ⟨tok, none⟩).tokenExpiryTime = none := ⟨rfl, rfl⟩
  refine ⟨rfl, hstate.1, hstate.2, ?_, ?_⟩
  · intro now2
    constructor
    · simp [getTokenInfo, cacheAndReturnToken, optStrTruthy_some tok htok]
    · simp [getTokenInfo, isCachedTokenValid, cacheAndReturnToken]
  · intro env2
    have hfast2 : isCachedTokenValid (cacheAndReturnToken s ⟨tok, none⟩)
        env2.now = false := by
      simp [isCachedTokenValid, cacheAndReturnToken]
    rw [acquireToken_calls_eq_body _ _ hfast2 hmsal hcfg]
    exact acquireTokenBody_calls_pos _ _

/-- An initialized authenticator with an empty cache and no listener. -/
def readyAuthNoCache : PCFAuthState :=
  ⟨some msalCfg0, some cfgValid, none, none, none⟩

/-- A provider oracle whose silent result carries no `expiresOn`. -/
def msalNoExpiry : MsalTransport :=
  ⟨none, ["user"], Except.ok ⟨"p", some 5⟩, ["user"], Except.ok ⟨"tok", none⟩⟩

/-- Witness for C10 at a concrete no-expiry acquisition. -/
theorem c10_token_without_expiry_witness :
    (acquireToken readyAuthNoCache ⟨0, msalNoExpiry⟩).result = Except.ok "tok"
    ∧ (acquireToken readyAuthNoCache ⟨0, msalNoExpiry⟩).state.tokenExpiryTime
        = none
    ∧ (getTokenInfo (acquireToken readyAuthNoCache ⟨0, msalNoExpiry⟩).state
        1).hasToken = true
    ∧ (getTokenInfo (acquireToken readyAuthNoCache ⟨0, msalNoExpiry⟩).state
        1).isValid = false
    ∧ 1 ≤ (acquireToken (acquireToken readyAuthNoCache ⟨0, msalNoExpiry⟩).state
        ⟨1, msalNoExpiry⟩).calls := by
  have h := c10_token_without_expiry readyAuthNoCache ⟨0, msalNoExpiry⟩
    "user" "tok" (by decide) rfl rfl rfl rfl rfl rfl (by decide)
  exact ⟨h.1, h.2.2.1, (h.2.2.2.1 1).1, (h.2.2.2.1 1).2,
    h.2.2.2.2 ⟨1, msalNoExpiry⟩⟩

/-- A status listener that always throws. -/
def throwingCb : AuthStatus → Option String := fun _ => some "listener exploded"

/-- A status listener that always returns normally. -/
def quietCb : AuthStatus → Option String := fun _ => none

/-- An initialized authenticator with a registered throwing listener. -/
def authWithThrowingCb : PCFAuthState :=
  ⟨some msalCfg0, some cfgValid, none, none, some throwingCb⟩

/-- An initialized authenticator with a registered well-behaved listener. -/
def authWithQuietCb : PCFAuthState :=
  ⟨some msalCfg0, some cfgValid, none, none, some quietCb⟩

/-- **C7, counterexample.** The claim says a notification never lets an
exception from the listener propagate into the caller's control flow.  On
a run whose token acquisition itself *succeeds* (the token ends up
cached), a throwing listener makes `acquireToken` reject with the
listener's own error: the source calls the callback unguarded, the
success-notification exception is caught and re-notified (throwing
again), and propagates to the caller. -/
theorem c7_counterexample :
    (acquireToken authWithThrowingCb ⟨0, msalHappy⟩).result
      = Except.error "listener exploded"
    ∧ (acquireToken authWithThrowingCb ⟨0, msalHappy⟩).state.cachedToken
      = some "tok" := ⟨rfl, rfl⟩

/-- The success event `notifyAuthSuccess` delivers after caching. -/
def successEvent (s : PCFAuthState) (tok : String) (exp : Option Nat)
    (now : Nat) : AuthStatus :=
  ⟨true, none, some (getTokenInfo (cacheAndReturnToken s ⟨tok, exp⟩) now)⟩

/-- The failure event `notifyAuthError` delivers for message `msg`. -/
def failEvent (msg : String) (now : Nat) : AuthStatus :=
  ⟨false, some (createAuthError msg now), none⟩

/-- Unfolding of `notifyAuthError` at a registered listener. -/
theorem notifyAuthError_some (s : PCFAuthState) (cb : AuthStatus → Option String)
    (hcb : s.authStatusCallback = some cb) (now : Nat) (msg : String) :
    notifyAuthError s now msg = ([failEvent msg now], cb (failEvent msg now)) := by
  unfold notifyAuthError
  rw [hcb]
  rfl

/-- Unfolding of `notifyAuthSuccess` at a registered listener, after caching. -/
theorem notifyAuthSuccess_cached (s : PCFAuthState) (cb : AuthStatus → Option String)
    (hcb : s.authStatusCallback = some cb) (tok : String) (exp : Option Nat)
    (now : Nat) :
    notifyAuthSuccess (cacheAndReturnToken s ⟨tok, exp⟩) now
      = ([successEvent s tok exp now], cb (successEvent s tok exp now)) := by
  unfold notifyAuthSuccess
  have hc2 : (cacheAndReturnToken s ⟨tok, exp⟩).authStatusCallback = some cb := hcb
  rw [hc2]
  rfl

/-- **C7, amended.** Every successful or failed (non-fast-path) token
acquisition pushes an `{isAuthenticated, error?, tokenInfo?}` event to the
registered listener, but the notification is *not* exception-safe: if the
listener throws, its exception propagates — on the success path the run
is converted into a rejection carrying the listener's error (after a
second, also unguarded, failure notification), and on the failure path the
underlying acquisition error is notified twice. -/
theorem c7_notification (s : PCFAuthState) (env : MsalEnv)
    (cb : AuthStatus → Option String) (a tok : String) (exp : Option Nat)
    (hfast : isCachedTokenValid s env.now = false)
    (hmsal : s.msalInstance.isSome = true)
    (hcfg : s.config.isSome = true)
    (hcb : s.authStatusCallback = some cb)
    (hinit : env.tr.initResult = none)
    (hacc : env.tr.accounts0 = [a]) :
    (env.tr.silentRes = Except.ok ⟨tok, exp⟩ →
      (cb (successEvent s tok exp env.now) = none →
        (acquireToken s env).events = [successEvent s tok exp env.now]
        ∧ (acquireToken s env).result = Except.ok tok)
      ∧ (∀ cmsg, cb (successEvent s tok exp env.now) = some cmsg →
          (acquireToken s env).events
            = [successEvent s tok exp env.now, failEvent cmsg env.now]
          ∧ (acquireToken s env).result
            = Except.error ((cb (failEvent cmsg env.now)).getD cmsg)))
    ∧ (∀ e1 e2, env.tr.silentRes = Except.error e1 →
        env.tr.loginPopup = Except.error e2 →
        cb (failEvent ("Interactive token acquisition failed: " ++ e2)
          env.now) = none →
        (acquireToken s env).events
          = [failEvent ("Interactive token acquisition failed: " ++ e2) env.now,
             failEvent ("Interactive token acquisition failed: " ++ e2) env.now]
        ∧ (acquireToken s env).result
          = Except.error ("Interactive token acquisition failed: " ++ e2)) := by
  have h1 : s.msalInstance.isNone = false := by
    cases h : s.msalInstance <;> simp_all
  have h2 : s.config.isNone = false := by
    cases h : s.config <;> simp_all
  have hens : ensureUserIsLoggedIn s env = ⟨Except.ok [a], 1, []⟩ := by
    unfold ensureUserIsLoggedIn
    rw [hacc]
    simp
  constructor
  · intro hsil
    have hsilor : acquireTokenSilentOrInteractive s env
        = ⟨Except.ok tok, cacheAndReturnToken s ⟨tok, exp⟩, 1, []⟩ := by
      unfold acquireTokenSilentOrInteractive
      rw [hsil]
    have hnotif := notifyAuthSuccess_cached s cb hcb tok exp env.now
    constructor
    · intro hnone
      have hbody : acquireTokenBody s env
          = ⟨Except.ok tok, cacheAndReturnToken s ⟨tok, exp⟩, 3,
             [successEvent s tok exp env.now]⟩ := by
        simp only [acquireTokenBody, hinit, hens, hsilor, hnotif, hnone] <;> simp
      have : acquireToken s env
          = ⟨Except.ok tok, cacheAndReturnToken s ⟨tok, exp⟩, 3,
             [successEvent s tok exp env.now]⟩ := by
        simp only [acquireToken, hfast, h1, h2, hbody] <;> simp
      rw [this]
      exact ⟨rfl, rfl⟩
    · intro cmsg hthrow
      have hbody : acquireTokenBody s env
          = ⟨Except.error cmsg, cacheAndReturnToken s ⟨tok, exp⟩, 3,
             [successEvent s tok exp env.now]⟩ := by
        simp only [acquireTokenBody, hinit, hens, hsilor, hnotif, hthrow] <;> simp
      have hnotif2 := notifyAuthError_some (cacheAndReturnToken s ⟨tok, exp⟩)
        cb hcb env.now cmsg
      cases hx : cb (failEvent cmsg env.now) with
      | none =>
        have : acquireToken s env
            = ⟨Except.error cmsg, cacheAndReturnToken s ⟨tok, exp⟩, 3,
               [successEvent s tok exp env.now, failEvent cmsg env.now]⟩ := by
          simp only [acquireToken, hfast, h1, h2, hbody, hnotif2, hx] <;> simp
        rw [this]
        exact ⟨rfl, rfl⟩
      | some c2 =>
        have : acquireToken s env
            = ⟨Except.error c2, cacheAndReturnToken s ⟨tok, exp⟩, 3,
               [successEvent s tok exp env.now, failEvent cmsg env.now]⟩ := by
          simp only [acquireToken, hfast, h1, h2, hbody, hnotif2, hx] <;> simp
        rw [this]
        exact ⟨rfl, rfl⟩
  · intro e1 e2 hsil hpop hquiet
    have hnotif : notifyAuthError s env.now
        ("Interactive token acquisition failed: " ++ e2)
        = ([failEvent ("Interactive token acquisition failed: " ++ e2) env.now],
           none) := by
      rw [notifyAuthError_some s cb hcb env.now
        ("Interactive token acquisition failed: " ++ e2), hquiet]
    have hsilor : acquireTokenSilentOrInteractive s env
        = ⟨Except.error ("Interactive token acquisition failed: " ++ e2), s,
           2, [failEvent ("Interactive token acquisition failed: " ++ e2)
             env.now]⟩ := by
      simp only [acquireTokenSilentOrInteractive, hsil, hpop, hnotif]
    have hbody : acquireTokenBody s env
        = ⟨Except.error ("Interactive token acquisition failed: " ++ e2), s,
           4, [failEvent ("Interactive token acquisition failed: " ++ e2)
             env.now]⟩ := by
      simp only [acquireTokenBody, hinit, hens, hsilor] <;> simp
    have : acquireToken s env
        = ⟨Except.error ("Interactive token acquisition failed: " ++ e2), s, 4,
           [failEvent ("Interactive token acquisition failed: " ++ e2) env.now,
            failEvent ("Interactive token acquisition failed: " ++ e2) env.now]⟩ := by
      simp only [acquireToken, hfast, h1, h2, hbody, hnotif] <;> simp
    rw [this]
    exact ⟨rfl, rfl⟩

/-- Witness for C7 (amended): a concrete successful acquisition with a
well-behaved registered listener receives exactly one success event. -/
theorem c7_notification_witness :
    (acquireToken authWithQuietCb ⟨0, msalHappy⟩).events
      = [successEvent authWithQuietCb "tok" (some 1000) 0]
    ∧ (acquireToken authWithQuietCb ⟨0, msalHappy⟩).result = Except.ok "tok" :=
  ((c7_notification authWithQuietCb ⟨0, msalHappy⟩ quietCb "user" "tok"
      (some 1000) rfl rfl rfl rfl rfl rfl).1 rfl).1 rfl

theorem strTruthy_true_iff (s : String) : strTruthy s = true ↔ s ≠ "" := by
  constructor
  · intro h heq
    rw [strTruthy_of_eq s heq] at h
    cases h
  · exact strTruthy_of_ne s

/-- `validateConfig`'s `isValid` field is the emptiness test of its
`errors` field. -/
theorem validateConfig_isValid (cfg : AgentConfig) :
    (validateConfig cfg).isValid = ((validateConfig cfg).errors.length == 0) :=
  rfl

/-- The exact content of `validateConfig().errors`: one occurrence of each
missing-field message per empty required field, one occurrence of each
GUID message per non-empty ill-formed id, and nothing else. -/
theorem validateConfig_exact_errors (cfg : AgentConfig) :
    (validateConfig cfg).errors.count "Client ID is required"
      = (if cfg.clientId = "" then 1 else 0)
    ∧ (validateConfig cfg).errors.count "Tenant ID is required"
      = (if cfg.tenantId = "" then 1 else 0)
    ∧ (validateConfig cfg).errors.count "Bot Identifier is required"
      = (if cfg.botIdentifier = "" then 1 else 0)
    ∧ (validateConfig cfg).errors.count "Environment ID is required"
      = (if cfg.environmentId = "" then 1 else 0)
    ∧ (validateConfig cfg).errors.count "Client ID must be a valid GUID"
      = (if cfg.clientId ≠ "" ∧ isValidGuid cfg.clientId = false then 1 else 0)
    ∧ (validateConfig cfg).errors.count "Tenant ID must be a valid GUID"
      = (if cfg.tenantId ≠ "" ∧ isValidGuid cfg.tenantId = false then 1 else 0)
    ∧ (validateConfig cfg).errors.length
      = (if cfg.clientId = "" then 1 else 0)
        + (if cfg.tenantId = "" then 1 else 0)
        + (if cfg.botIdentifier = "" then 1 else 0)
        + (if cfg.environmentId = "" then 1 else 0)
        + (if cfg.clientId ≠ "" ∧ isValidGuid cfg.clientId = false then 1 else 0)
        + (if cfg.tenantId ≠ "" ∧ isValidGuid cfg.tenantId = false then 1 else 0) := by
  refine ⟨?_, ?_, ?_, ?_, ?_, ?_, ?_⟩ <;>
    simp [validateConfig, List.count_append,
      apply_ite (List.count "Client ID is required"),
      apply_ite (List.count "Tenant ID is required"),
      apply_ite (List.count "Bot Identifier is required"),
      apply_ite (List.count "Environment ID is required"),
      apply_ite (List.count "Client ID must be a valid GUID"),
      apply_ite (List.count "Tenant ID must be a valid GUID"),
      apply_ite List.length, List.count_cons, List.count_nil,
      Bool.not_eq_true', Bool.and_eq_true,
      strTruthy_false_iff, strTruthy_true_iff] <;> ring

/-- **C2.** Whenever any of the four required fields is empty,
`validateConfig()` is invalid and lists exactly one missing-field error
per empty field plus one GUID error per non-empty ill-formed
`clientId`/`tenantId` (and nothing else), and `sendMessage` on such a
configuration short-circuits to a failed envelope with
`conversationId = "error"` making zero identity-provider calls, zero
`startConversation` calls and zero ask calls. -/
theorem c2_missing_fields (st : AgentClientState) (env : SendEnv) (m : String)
    (c : Bool)
    (h : st.config.clientId = "" ∨ st.config.tenantId = ""
       ∨ st.config.botIdentifier = "" ∨ st.config.environmentId = "") :
    (validateConfig st.config).isValid = false
    ∧ (validateConfig st.config).errors.count "Client ID is required"
      = (if st.config.clientId = "" then 1 else 0)
    ∧ (validateConfig st.config).errors.count "Tenant ID is required"
      = (if st.config.tenantId = "" then 1 else 0)
    ∧ (validateConfig st.config).errors.count "Bot Identifier is required"
      = (if st.config.botIdentifier = "" then 1 else 0)
    ∧ (validateConfig st.config).errors.count "Environment ID is required"
      = (if st.config.environmentId = "" then 1 else 0)
    ∧ (validateConfig st.config).errors.count "Client ID must be a valid GUID"
      = (if st.config.clientId ≠ "" ∧ isValidGuid st.config.clientId = false
         then 1 else 0)
    ∧ (validateConfig st.config).errors.count "Tenant ID must be a valid GUID"
      = (if st.config.tenantId ≠ "" ∧ isValidGuid st.config.tenantId = false
         then 1 else 0)
    ∧ (validateConfig st.config).errors.length
      = (if st.config.clientId = "" then 1 else 0)
        + (if st.config.tenantId = "" then 1 else 0)
        + (if st.config.botIdentifier = "" then 1 else 0)
        + (if st.config.environmentId = "" then 1 else 0)
        + (if st.config.clientId ≠ "" ∧ isValidGuid st.config.clientId = false
           then 1 else 0)
        + (if st.config.tenantId ≠ "" ∧ isValidGuid st.config.tenantId = false
           then 1 else 0)
    ∧ (sendMessage st env m c).resp.success = false
    ∧ (sendMessage st env m c).resp.conversationId = "error"
    ∧ (sendMessage st env m c).msalCalls = 0
    ∧ (sendMessage st env m c).startConvCalls = 0
    ∧ (sendMessage st env m c).askedIds = [] := by
  have hx := validateConfig_exact_errors st.config
  have h1 : 1 ≤ (validateConfig st.config).errors.length := by
    rw [hx.2.2.2.2.2.2]
    rcases h with h | h | h | h <;> simp [h] <;> (try split_ifs) <;> omega
  have hv : (validateConfig st.config).isValid = false := by
    rw [validateConfig_isValid]
    have hne : (validateConfig st.config).errors.length ≠ 0 := by omega
    simp [hne]
  have hrun : sendMessage st env m c
      = ⟨errorEnvelope st.config env ("Configuration invalid: "
          ++ String.intercalate ", " (validateConfig st.config).errors),
         st, 0, 0, [], []⟩ := by
    unfold sendMessage sendMessageAttempt
    simp [hv]
  rw [hrun]
  exact ⟨hv, hx.1, hx.2.1, hx.2.2.1, hx.2.2.2.1, hx.2.2.2.2.1,
    hx.2.2.2.2.2.1, hx.2.2.2.2.2.2, rfl, rfl, rfl, rfl, rfl⟩

/-- Witness for C2 at a configuration whose `environmentId` is empty and
whose `tenantId` is a non-empty non-GUID (scenario D of the spec plus one
GUID error). -/
theorem c2_missing_fields_witness :
    (validateConfig ⟨guidA, "not-a-guid", "bot", ""⟩).isValid = false
    ∧ (validateConfig ⟨guidA, "not-a-guid", "bot", ""⟩).errors.count
        "Environment ID is required" = 1
    ∧ (validateConfig ⟨guidA, "not-a-guid", "bot", ""⟩).errors.count
        "Tenant ID must be a valid GUID" = 1
    ∧ (validateConfig ⟨guidA, "not-a-guid", "bot", ""⟩).errors.length = 2
    ∧ (sendMessage ⟨⟨guidA, "not-a-guid", "bot", ""⟩, authStateEmpty, none,
          none⟩ envIdle "hi" true).resp.success = false
    ∧ (sendMessage ⟨⟨guidA, "not-a-guid", "bot", ""⟩, authStateEmpty, none,
          none⟩ envIdle "hi" true).resp.conversationId = "error"
    ∧ (sendMessage ⟨⟨guidA, "not-a-guid", "bot", ""⟩, authStateEmpty, none,
          none⟩ envIdle "hi" true).msalCalls = 0
    ∧ (sendMessage ⟨⟨guidA, "not-a-guid", "bot", ""⟩, authStateEmpty, none,
          none⟩ envIdle "hi" true).startConvCalls = 0 := by
  have h := c2_missing_fields ⟨⟨guidA, "not-a-guid", "bot", ""⟩, authStateEmpty,
    none, none⟩ envIdle "hi" true (Or.inr (Or.inr (Or.inr rfl)))
  refine ⟨h.1, ?_, ?_, ?_, h.2.2.2.2.2.2.2.2.1, h.2.2.2.2.2.2.2.2.2.1,
    h.2.2.2.2.2.2.2.2.2.2.1, h.2.2.2.2.2.2.2.2.2.2.2.1⟩
  · rw [h.2.2.2.2.1]
    decide
  · rw [h.2.2.2.2.2.2.1]
    decide
  · rw [h.2.2.2.2.2.2.2.1]
    decide

/-- The `ConnectionSettings` built from a configuration in
`initializeCopilotClient`. -/
def connectionOf (cfg : AgentConfig) : ConnectionSettings :=
  ⟨cfg.clientId, cfg.tenantId, cfg.environmentId, cfg.botIdentifier⟩

/-- The client state after `initializeCopilotClient` with token `tok`. -/
def clientWithCopilot (st : AgentClientState) (tok : String) :
    AgentClientState :=
  { st with copilotClient := some ⟨connectionOf st.config, tok⟩ }

/-- Reduction of `sendMessageAttempt` on a valid configuration with a
valid cached token: the attempt is exactly the turn run against the
freshly (re)built Copilot client at the cached token, with no
identity-provider call and no status event. -/
theorem sendMessageAttempt_fast (st : AgentClientState) (env : SendEnv)
    (m : String) (c : Bool)
    (hv : (validateConfig st.config).isValid = true)
    (ht : isCachedTokenValid st.auth env.authNow = true) :
    sendMessageAttempt st env m c =
      ((sendMessageToAgent (clientWithCopilot st (st.auth.cachedToken.getD ""))
          env.copilot env.respNow m c).result,
       (sendMessageToAgent (clientWithCopilot st (st.auth.cachedToken.getD ""))
          env.copilot env.respNow m c).state,
       0,
       (sendMessageToAgent (clientWithCopilot st (st.auth.cachedToken.getD ""))
          env.copilot env.respNow m c).startCalls,
       (sendMessageToAgent (clientWithCopilot st (st.auth.cachedToken.getD ""))
          env.copilot env.respNow m c).askedIds,
       []) := by
  unfold sendMessageAttempt
  rw [acquireToken_fast st.auth ⟨env.authNow, env.msal⟩ ht]
  simp only [hv, if_true]
  rcases hturn : sendMessageToAgent (clientWithCopilot st
    (st.auth.cachedToken.getD "")) env.copilot env.respNow m c
    with ⟨r, st2, sc, asked⟩
  have hsame : ({ st with
      auth := st.auth
      copilotClient := some
        { settings :=
            { appClientId := st.config.clientId
              tenantId := st.config.tenantId
              environmentId := st.config.environmentId
              agentIdentifier := st.config.botIdentifier }
          accessToken := st.auth.cachedToken.getD "" } } : AgentClientState)
      = clientWithCopilot st (st.auth.cachedToken.getD "") := rfl
  rw [hsame, hturn]

/-- Reduction of `sendMessageToAgent` when a new conversation must be
started (not continuing, or no held id) and the provider returns id
`cid`: the id is stored and the question is asked against it. -/
theorem sendMessageToAgent_new (st : AgentClientState) (tr : CopilotTransport)
    (respNow : Nat) (m : String) (cont : Bool) (cid : String)
    (hcp : st.copilotClient.isSome = true)
    (hno : cont = false ∨ st.currentConversationId = none)
    (hs : tr.startConv = Except.ok (some cid))
    (hcid : cid ≠ "") :
    sendMessageToAgent st tr respNow m cont
      = askAndNormalize { st with currentConversationId := some cid } tr
          respNow m cid 1 := by
  unfold sendMessageToAgent
  cases hcpv : st.copilotClient with
  | none => rw [hcpv] at hcp; cases hcp
  | some hcl =>
    rcases hno with hfalse | hnone
    · subst hfalse
      simp [hs, optStrTruthy_some cid hcid]
    · have hN : optStrTruthy none = false := rfl
      cases cont <;> simp [hnone, hs, hcpv, hN, optStrTruthy_some cid hcid]

/-- Reduction of `sendMessageToAgent` when continuing with a held id:
no `startConversationAsync` call, the held id is asked directly. -/
theorem sendMessageToAgent_reuse (st : AgentClientState)
    (tr : CopilotTransport) (respNow : Nat) (m cid : String)
    (hcp : st.copilotClient.isSome = true)
    (hc : st.currentConversationId = some cid) (hcid : cid ≠ "") :
    sendMessageToAgent st tr respNow m true
      = askAndNormalize st tr respNow m cid 0 := by
  unfold sendMessageToAgent
  cases hcpv : st.copilotClient with
  | none => rw [hcpv] at hcp; cases hcp
  | some hcl =>
    simp [hc, optStrTruthy_some cid hcid]

/-- Reduction of `sendMessageToAgent` when a new conversation is started
but the provider reply carries no conversation id: the turn fails with
the wrapped `NoConversationId` message after one start call and no ask. -/
theorem sendMessageToAgent_no_id (st : AgentClientState)
    (tr : CopilotTransport) (respNow : Nat) (m : String) (cont : Bool)
    (hcp : st.copilotClient.isSome = true)
    (hno : cont = false ∨ st.currentConversationId = none)
    (hs : tr.startConv = Except.ok none) :
    (sendMessageToAgent st tr respNow m cont).result
      = Except.error
        "Failed to communicate with agent: Failed to get conversation ID from agent"
    ∧ (sendMessageToAgent st tr respNow m cont).startCalls = 1
    ∧ (sendMessageToAgent st tr respNow m cont).askedIds = [] := by
  unfold sendMessageToAgent
  cases hcpv : st.copilotClient with
  | none => rw [hcpv] at hcp; cases hcp
  | some hcl =>
    rcases hno with hfalse | hnone
    · subst hfalse
      simp [hs, optStrTruthy]
    · have hN : optStrTruthy none = false := rfl
      cases cont <;> simp [hnone, hs, hcpv, hN, optStrTruthy]

/-- Full reduction of a `sendMessage` turn that starts a new conversation
(valid config, valid cached token, provider id `cid`, ask resolves):
success envelope, stored id, one start call, the question asked at `cid`,
no identity-provider call. -/
theorem sendMessage_new_conv_run (st : AgentClientState) (env : SendEnv)
    (m cid : String) (replies : List Activity) (cont : Bool)
    (hv : (validateConfig st.config).isValid = true)
    (ht : isCachedTokenValid st.auth env.authNow = true)
    (hno : cont = false ∨ st.currentConversationId = none)
    (hs : env.copilot.startConv = Except.ok (some cid))
    (hcid : cid ≠ "")
    (ha : env.copilot.askQuestion m cid = Except.ok replies) :
    sendMessage st env m cont =
      ⟨successEnvelope st.config env (normalizeReplies replies cid env.respNow),
       { st with
         copilotClient := some ⟨connectionOf st.config,
           st.auth.cachedToken.getD ""⟩
         currentConversationId := some cid },
       0, 1, [cid], []⟩ := by
  have hatt := sendMessageAttempt_fast st env m cont hv ht
  have hturn := sendMessageToAgent_new
    (clientWithCopilot st (st.auth.cachedToken.getD "")) env.copilot
    env.respNow m cont cid rfl hno hs hcid
  have hask : askAndNormalize
      { clientWithCopilot st (st.auth.cachedToken.getD "") with
        currentConversationId := some cid } env.copilot env.respNow m cid 1
      = ⟨Except.ok (normalizeReplies replies cid env.respNow),
         { st with
           copilotClient := some ⟨connectionOf st.config,
             st.auth.cachedToken.getD ""⟩
           currentConversationId := some cid },
         1, [cid]⟩ := by
    unfold askAndNormalize
    rw [ha]
    rfl
  unfold sendMessage
  rw [hatt, hturn, hask]

/-- Full reduction of a `sendMessage` turn that starts a new conversation
whose ask step then throws: failed envelope, but the freshly stored
conversation id is retained in the client state. -/
theorem sendMessage_new_conv_askfail_run (st : AgentClientState)
    (env : SendEnv) (m cid e : String) (cont : Bool)
    (hv : (validateConfig st.config).isValid = true)
    (ht : isCachedTokenValid st.auth env.authNow = true)
    (hno : cont = false ∨ st.currentConversationId = none)
    (hs : env.copilot.startConv = Except.ok (some cid))
    (hcid : cid ≠ "")
    (ha : env.copilot.askQuestion m cid = Except.error e) :
    sendMessage st env m cont =
      ⟨errorEnvelope st.config env ("Failed to communicate with agent: " ++ e),
       { st with
         copilotClient := some ⟨connectionOf st.config,
           st.auth.cachedToken.getD ""⟩
         currentConversationId := some cid },
       0, 1, [cid], []⟩ := by
  have hatt := sendMessageAttempt_fast st env m cont hv ht
  have hturn := sendMessageToAgent_new
    (clientWithCopilot st (st.auth.cachedToken.getD "")) env.copilot
    env.respNow m cont cid rfl hno hs hcid
  have hask : askAndNormalize
      { clientWithCopilot st (st.auth.cachedToken.getD "") with
        currentConversationId := some cid } env.copilot env.respNow m cid 1
      = ⟨Except.error ("Failed to communicate with agent: " ++ e),
         { st with
           copilotClient := some ⟨connectionOf st.config,
             st.auth.cachedToken.getD ""⟩
           currentConversationId := some cid },
         1, [cid]⟩ := by
    unfold askAndNormalize
    rw [ha]
    rfl
  unfold sendMessage
  rw [hatt, hturn, hask]

/-- Reduction of a continuing `sendMessage` turn with a held id: zero
`startConversation` calls, the question asked at the held id, which stays
held; when the ask resolves the envelope is the normalized success one. -/
theorem sendMessage_reuse_run (st : AgentClientState) (env : SendEnv)
    (m cid : String)
    (hv : (validateConfig st.config).isValid = true)
    (ht : isCachedTokenValid st.auth env.authNow = true)
    (hc : st.currentConversationId = some cid) (hcid : cid ≠ "") :
    (sendMessage st env m true).startConvCalls = 0
    ∧ (sendMessage st env m true).askedIds = [cid]
    ∧ (sendMessage st env m true).msalCalls = 0
    ∧ (sendMessage st env m true).state.currentConversationId = some cid
    ∧ (∀ replies, env.copilot.askQuestion m cid = Except.ok replies →
        (sendMessage st env m true).resp
          = successEnvelope st.config env
              (normalizeReplies replies cid env.respNow)) := by
  have hatt := sendMessageAttempt_fast st env m true hv ht
  have hturn := sendMessageToAgent_reuse
    (clientWithCopilot st (st.auth.cachedToken.getD "")) env.copilot
    env.respNow m cid rfl hc hcid
  refine ⟨?_, ?_, ?_, ?_, ?_⟩
  · unfold sendMessage
    rw [hatt, hturn]
    unfold askAndNormalize
    cases env.copilot.askQuestion m cid <;> rfl
  · unfold sendMessage
    rw [hatt, hturn]
    unfold askAndNormalize
    cases env.copilot.askQuestion m cid <;> rfl
  · unfold sendMessage
    rw [hatt, hturn]
    unfold askAndNormalize
    cases env.copilot.askQuestion m cid <;> rfl
  · unfold sendMessage
    rw [hatt, hturn]
    unfold askAndNormalize
    cases env.copilot.askQuestion m cid <;> exact hc
  · intro replies hr
    unfold sendMessage
    rw [hatt, hturn]
    unfold askAndNormalize
    rw [hr]

/-- Reduction of a `sendMessage` turn that must start a conversation but
gets no id back from the provider: the turn fails with the wrapped
message, after exactly one start call and no ask call. -/
theorem sendMessage_no_id_run (st : AgentClientState) (env : SendEnv)
    (m : String) (cont : Bool)
    (hv : (validateConfig st.config).isValid = true)
    (ht : isCachedTokenValid st.auth env.authNow = true)
    (hno : cont = false ∨ st.currentConversationId = none)
    (hs : env.copilot.startConv = Except.ok none) :
    (sendMessage st env m cont).resp.success = false
    ∧ (sendMessage st env m cont).resp.message
      = "API Error: Failed to communicate with agent: Failed to get conversation ID from agent"
    ∧ (sendMessage st env m cont).startConvCalls = 1
    ∧ (sendMessage st env m cont).askedIds = [] := by
  have hatt := sendMessageAttempt_fast st env m cont hv ht
  have hturn := sendMessageToAgent_no_id
    (clientWithCopilot st (st.auth.cachedToken.getD "")) env.copilot
    env.respNow m cont rfl hno hs
  unfold sendMessage
  rw [hatt, hturn.1, hturn.2.1, hturn.2.2]
  exact ⟨rfl, rfl, rfl, rfl⟩

theorem jsOrS_of_ne (a b : String) (h : a ≠ "") : jsOrS a b = a := by
  unfold jsOrS
  have he : a.isEmpty = false := by
    rw [Bool.eq_false_iff]
    intro hh
    exact h ((String.isEmpty_iff a).mp hh)
  simp [he]

/-- **C3.** After a first successful turn that started conversation `cid`:
a second call with `continueConversation = true` makes zero further
`startConversation` calls and asks against the held `cid` (call count
stays at 1 across both turns); a second call with
`continueConversation = false` clears the held id and invokes
`startConversation` again, asking against and storing the new id; and a
started conversation whose provider reply has no id fails the turn.
(Each turn is pinned to the fast-path token so the transport is reached.) -/
theorem c3_conversation_continuity (st : AgentClientState) (env1 : SendEnv)
    (m1 cid : String) (replies : List Activity)
    (hv : (validateConfig st.config).isValid = true)
    (ht1 : isCachedTokenValid st.auth env1.authNow = true)
    (hc : st.currentConversationId = none)
    (hs1 : env1.copilot.startConv = Except.ok (some cid))
    (hcid : cid ≠ "")
    (ha1 : env1.copilot.askQuestion m1 cid = Except.ok replies) :
    (sendMessage st env1 m1 true).resp.success = true
    ∧ (sendMessage st env1 m1 true).resp.conversationId = cid
    ∧ (sendMessage st env1 m1 true).startConvCalls = 1
    ∧ (sendMessage st env1 m1 true).state.currentConversationId = some cid
    ∧ (∀ env2 m2, isCachedTokenValid st.auth env2.authNow = true →
        (sendMessage (sendMessage st env1 m1 true).state env2 m2
          true).startConvCalls = 0
        ∧ (sendMessage (sendMessage st env1 m1 true).state env2 m2
          true).askedIds = [cid])
    ∧ (∀ env2 m2 cid2 replies2,
        isCachedTokenValid st.auth env2.authNow = true →
        env2.copilot.startConv = Except.ok (some cid2) → cid2 ≠ "" →
        env2.copilot.askQuestion m2 cid2 = Except.ok replies2 →
        (sendMessage (sendMessage st env1 m1 true).state env2 m2
          false).startConvCalls = 1
        ∧ (sendMessage (sendMessage st env1 m1 true).state env2 m2
          false).askedIds = [cid2]
        ∧ (sendMessage (sendMessage st env1 m1 true).state env2 m2
          false).state.currentConversationId = some cid2)
    ∧ (∀ env2 m2, isCachedTokenValid st.auth env2.authNow = true →
        env2.copilot.startConv = Except.ok none →
        (sendMessage (sendMessage st env1 m1 true).state env2 m2
          false).resp.success = false
        ∧ (sendMessage (sendMessage st env1 m1 true).state env2 m2
          false).resp.message
          = "API Error: Failed to communicate with agent: Failed to get conversation ID from agent") := by
  have h1 := sendMessage_new_conv_run st env1 m1 cid replies true hv ht1
    (Or.inr hc) hs1 hcid ha1
  have hvs : (validateConfig (sendMessage st env1 m1 true).state.config).isValid
      = true := by
    rw [h1]
    exact hv
  have hcs : (sendMessage st env1 m1 true).state.currentConversationId
      = some cid := by
    rw [h1]
  refine ⟨?_, ?_, ?_, hcs, ?_, ?_, ?_⟩
  · rw [h1]
    rfl
  · rw [h1]
    simp [successEnvelope, normalizeReplies, jsOrS_of_ne _ _ hcid]
  · rw [h1]
  · intro env2 m2 ht2
    have ht2s : isCachedTokenValid (sendMessage st env1 m1 true).state.auth
        env2.authNow = true := by
      rw [h1]
      exact ht2
    have h2 := sendMessage_reuse_run ((sendMessage st env1 m1 true).state)
      env2 m2 cid hvs ht2s hcs hcid
    exact ⟨h2.1, h2.2.1⟩
  · intro env2 m2 cid2 replies2 ht2 hs2 hcid2 ha2
    have ht2s : isCachedTokenValid (sendMessage st env1 m1 true).state.auth
        env2.authNow = true := by
      rw [h1]
      exact ht2
    have h2 := sendMessage_new_conv_run ((sendMessage st env1 m1 true).state)
      env2 m2 cid2 replies2 false hvs ht2s (Or.inl rfl) hs2 hcid2 ha2
    rw [h2]
    exact ⟨rfl, rfl, rfl⟩
  · intro env2 m2 ht2 hs2
    have ht2s : isCachedTokenValid (sendMessage st env1 m1 true).state.auth
        env2.authNow = true := by
      rw [h1]
      exact ht2
    have h2 := sendMessage_no_id_run ((sendMessage st env1 m1 true).state)
      env2 m2 false hvs ht2s (Or.inl rfl) hs2
    exact ⟨h2.1, h2.2.1⟩

/-- A Copilot oracle that starts conversation `conv-2` and answers every
question with an empty activity list. -/
def copilotConv2 : CopilotTransport :=
  ⟨Except.ok (some "conv-2"), fun _ _ => Except.ok []⟩

/-- A second-turn environment built on `copilotConv2`. -/
def envSecond : SendEnv := ⟨7, 9, 0, 12, msalHappy, copilotConv2⟩

/-- Witness for C3: two concrete turns, continuing and not continuing. -/
theorem c3_conversation_continuity_witness :
    (sendMessage clientReady envEmptyReply "q1" true).resp.success = true
    ∧ (sendMessage clientReady envEmptyReply "q1" true).startConvCalls = 1
    ∧ (sendMessage (sendMessage clientReady envEmptyReply "q1" true).state
        envSecond "q2" true).startConvCalls = 0
    ∧ (sendMessage (sendMessage clientReady envEmptyReply "q1" true).state
        envSecond "q2" true).askedIds = ["conv-1"]
    ∧ (sendMessage (sendMessage clientReady envEmptyReply "q1" true).state
        envSecond "q2" false).startConvCalls = 1
    ∧ (sendMessage (sendMessage clientReady envEmptyReply "q1" true).state
        envSecond "q2" false).askedIds = ["conv-2"] := by
  have h := c3_conversation_continuity clientReady envEmptyReply "q1" "conv-1"
    [] (by decide) (by decide) rfl rfl (by decide) rfl
  have hreuse := h.2.2.2.2.1 envSecond "q2" (by decide)
  have hfresh := h.2.2.2.2.2.1 envSecond "q2" "conv-2" [] (by decide) rfl
    (by decide) rfl
  exact ⟨h.1, h.2.2.1, hreuse.1, hreuse.2, hfresh.1, hfresh.2.1⟩

/-- **C9.** When starting a conversation succeeds (id `cid` obtained and
stored) but the ask step of the same turn throws, the failed turn leaves
the new id held: the envelope fails, yet the state carries `cid`, and a
subsequent continuing call reuses it without another `startConversation`
call. -/
theorem c9_failed_turn_keeps_id (st : AgentClientState) (env1 : SendEnv)
    (m1 cid e : String)
    (hv : (validateConfig st.config).isValid = true)
    (ht1 : isCachedTokenValid st.auth env1.authNow = true)
    (hc : st.currentConversationId = none)
    (hs1 : env1.copilot.startConv = Except.ok (some cid))
    (hcid : cid ≠ "")
    (ha1 : env1.copilot.askQuestion m1 cid = Except.error e) :
    (sendMessage st env1 m1 true).resp.success = false
    ∧ (sendMessage st env1 m1 true).resp.message
      = "API Error: Failed to communicate with agent: " ++ e
    ∧ (sendMessage st env1 m1 true).startConvCalls = 1
    ∧ (sendMessage st env1 m1 true).state.currentConversationId = some cid
    ∧ (∀ env2 m2, isCachedTokenValid st.auth env2.authNow = true →
        (sendMessage (sendMessage st env1 m1 true).state env2 m2
          true).startConvCalls = 0
        ∧ (sendMessage (sendMessage st env1 m1 true).state env2 m2
          true).askedIds = [cid]) := by
  have h1 := sendMessage_new_conv_askfail_run st env1 m1 cid e true hv ht1
    (Or.inr hc) hs1 hcid ha1
  have hvs : (validateConfig (sendMessage st env1 m1 true).state.config).isValid
      = true := by
    rw [h1]
    exact hv
  have hcs : (sendMessage st env1 m1 true).state.currentConversationId
      = some cid := by
    rw [h1]
  refine ⟨?_, ?_, ?_, hcs, ?_⟩
  · rw [h1]
    rfl
  · rw [h1]
    rfl
  · rw [h1]
  · intro env2 m2 ht2
    have ht2s : isCachedTokenValid (sendMessage st env1 m1 true).state.auth
        env2.authNow = true := by
      rw [h1]
      exact ht2
    have h2 := sendMessage_reuse_run ((sendMessage st env1 m1 true).state)
      env2 m2 cid hvs ht2s hcs hcid
    exact ⟨h2.1, h2.2.1⟩

/-- A Copilot oracle that starts `conv-1` but whose ask step throws. -/
def copilotAskFails : CopilotTransport :=
  ⟨Except.ok (some "conv-1"), fun _ _ => Except.error "boom"⟩

/-- An environment built on `copilotAskFails`. -/
def envAskFails : SendEnv := ⟨0, 5, 0, 11, msalHappy, copilotAskFails⟩

/-- Witness for C9: a concrete failed turn retaining `conv-1`, reused by
the next continuing turn. -/
theorem c9_failed_turn_keeps_id_witness :
    (sendMessage clientReady envAskFails "q1" true).resp.success = false
    ∧ (sendMessage clientReady envAskFails "q1" true).state.currentConversationId
      = some "conv-1"
    ∧ (sendMessage (sendMessage clientReady envAskFails "q1" true).state
        envSecond "q2" true).startConvCalls = 0
    ∧ (sendMessage (sendMessage clientReady envAskFails "q1" true).state
        envSecond "q2" true).askedIds = ["conv-1"] := by
  have h := c9_failed_turn_keeps_id clientReady envAskFails "q1" "conv-1"
    "boom" (by decide) (by decide) rfl rfl (by decide) rfl
  have hreuse := h.2.2.2.2 envSecond "q2" (by decide)
  exact ⟨h.1, h.2.2.2.1, hreuse.1, hreuse.2⟩

/-- **C5, counterexample.** The claim says a successful turn whose reply
has zero non-empty text segments and zero adaptive cards yields
`messageText = ""`.  On a concrete such turn (empty activity list) the
code instead coerces the message to the placeholder
`"No response from agent"` (the `hasAdaptiveCards ? "" : "No response
from agent"` fallback), while `hasText` is indeed reported `false`. -/
theorem c5_counterexample :
    (sendMessage clientReady envEmptyReply "hi" true).resp.success = true
    ∧ (sendMessage clientReady envEmptyReply "hi" true).resp.metadata.hasText
      = some false
    ∧ (sendMessage clientReady envEmptyReply
        "hi" true).resp.metadata.hasAdaptiveCards = some false
    ∧ (sendMessage clientReady envEmptyReply "hi" true).resp.message
      = "No response from agent" := by
  refine ⟨rfl, rfl, rfl, rfl⟩

/-- **C5, amended.** For a successful turn whose reply has zero non-empty
text segments: with zero adaptive cards the envelope's message is the
placeholder `"No response from agent"` (not the empty string) with
`hasText = false`; with at least one adaptive card the message is the
empty string (no placeholder) with `hasAdaptiveCards = true`. -/
theorem c5_reply_normalization (st : AgentClientState) (env : SendEnv)
    (m cid : String) (replies : List Activity)
    (hv : (validateConfig st.config).isValid = true)
    (ht : isCachedTokenValid st.auth env.authNow = true)
    (hc : st.currentConversationId = none)
    (hs : env.copilot.startConv = Except.ok (some cid))
    (hcid : cid ≠ "")
    (ha : env.copilot.askQuestion m cid = Except.ok replies)
    (htext : extractTexts replies = []) :
    (sendMessage st env m true).resp.success = true
    ∧ (sendMessage st env m true).resp.metadata.hasText = some false
    ∧ (extractCards replies = [] →
        (sendMessage st env m true).resp.metadata.hasAdaptiveCards
          = some false
        ∧ (sendMessage st env m true).resp.message = "No response from agent")
    ∧ (extractCards replies ≠ [] →
        (sendMessage st env m true).resp.metadata.hasAdaptiveCards = some true
        ∧ (sendMessage st env m true).resp.message = "") := by
  have h1 := sendMessage_new_conv_run st env m cid replies true hv ht
    (Or.inr hc) hs hcid ha
  have hjoin : String.intercalate "\n\n" (extractTexts replies) = "" := by
    rw [htext]
    rfl
  have hE : ("" : String).isEmpty = true := rfl
  refine ⟨?_, ?_, ?_, ?_⟩
  · rw [h1]
    rfl
  · rw [h1]
    simp [successEnvelope, normalizeReplies, hjoin, hE]
  · intro hcards
    rw [h1]
    constructor
    · simp [successEnvelope, normalizeReplies, hcards]
    · simp [successEnvelope, normalizeReplies, hjoin, hcards, jsOrS, hE]
  · intro hcards
    rw [h1]
    cases hcs : extractCards replies with
    | nil => exact absurd hcs hcards
    | cons c0 rest =>
      constructor
      · simp [successEnvelope, normalizeReplies, hcs]
      · simp [successEnvelope, normalizeReplies, hjoin, hcs, jsOrS, hE]

/-- A message activity carrying one adaptive card and no text. -/
def cardActivity : Activity :=
  ⟨"message", none,
    [⟨"application/vnd.microsoft.card.adaptive", "cardJson", none⟩], none⟩

/-- A Copilot oracle replying with one card-only activity. -/
def copilotCardReply : CopilotTransport :=
  ⟨Except.ok (some "conv-1"), fun _ _ => Except.ok [cardActivity]⟩

/-- An environment built on `copilotCardReply`. -/
def envCardReply : SendEnv := ⟨0, 7, 0, 3, msalHappy, copilotCardReply⟩

/-- Witness for C5 (amended): the empty-reply leg and the card-only leg
at concrete transports. -/
theorem c5_reply_normalization_witness :
    ((sendMessage clientReady envEmptyReply "hi" true).resp.message
      = "No response from agent"
    ∧ (sendMessage clientReady envEmptyReply "hi" true).resp.metadata.hasText
      = some false)
    ∧ ((sendMessage clientReady envCardReply "hi" true).resp.message = ""
    ∧ (sendMessage clientReady envCardReply
        "hi" true).resp.metadata.hasAdaptiveCards = some true) := by
  have hempty := c5_reply_normalization clientReady envEmptyReply "hi" "conv-1"
    [] (by decide) (by decide) rfl rfl (by decide) rfl rfl
  have hcard := c5_reply_normalization clientReady envCardReply "hi" "conv-1"
    [cardActivity] (by decide) (by decide) rfl rfl (by decide) rfl rfl
  exact ⟨⟨(hempty.2.2.1 rfl).2, hempty.2.1⟩,
    ⟨(hcard.2.2.2 (by decide)).2, (hcard.2.2.2 (by decide)).1⟩⟩
